import Mathlib

/-!
Shallow embedding of the Pebble MultiTZs watchface (src/src/main.c).

The watchface shows three time zones.  Each panel's render callback
`timezone_layer_update` takes the shared current time `now`, mutates its
`tm_min` and `tm_hour` fields in place to the target zone's time using C
integer arithmetic (truncated division and remainder), formats the result,
computes an AM/PM flag, restores the saved fields, and issues the drawing
commands.  The arithmetic core is embedded as `computeZone` and the whole
callback as `timezone_layer_update`, a function from the shared state to
the drawing commands paired with the state left behind.
-/

/-- The SDK time structure `PblTm`, restricted to the two fields this
program reads and writes: `tm_hour` and `tm_min`. -/
structure PblTm where
  tm_hour : Int
  tm_min : Int
  deriving DecidableEq, Repr

/-- A configured zone entry `timezone_t` (main.c lines 30-35): display name
and UTC offset in minutes.  The layer handle is irrelevant to the logic. -/
structure Timezone where
  name : String
  offset : Int
  deriving DecidableEq, Repr

/-- Local timezone GMT offset (main.c line 40): `8 * 60`. -/
def gmt_offset : Int := 8 * 60

/-- The three statically configured zones (main.c lines 45-50). -/
def timezones : List Timezone :=
  [⟨"US Central", -6 * 60⟩, ⟨"US Eastern", -5 * 60⟩, ⟨"India", 5 * 60 + 30⟩]

/-- Result of the zone arithmetic in `timezone_layer_update` (main.c lines
65-92), together with flags recording whether the minute-carry branch
(`now.tm_min > 60`, line 67) and the hour-overflow branch
(`now.tm_hour > 24`, line 79) were taken. -/
structure ZoneResult where
  hour : Int
  min : Int
  is_pm : Bool
  carryTaken : Bool
  overflowTaken : Bool
  deriving DecidableEq, Repr

/-- The zone-time arithmetic of `timezone_layer_update` (main.c lines
62-92).  C's `%` and `/` on `int` truncate toward zero, so they are
`Int.tmod` and `Int.tdiv` here.  The code adds `delta % 60` to the minute,
carries one hour when the sum exceeds 60 (else borrows when negative),
adds `delta / 60` to the hour, and corrects the hour by one step in each
direction (`> 24` and `< 0`); `is_pm` is `hour > 12` on the result. -/
def computeZone (tzOffset localOffset : Int) (t : PblTm) : ZoneResult :=
  let delta := tzOffset - localOffset
  let min1 := t.tm_min + Int.tmod delta 60
  let step :=
    if min1 > 60 then (t.tm_hour + 1, min1 - 60, true)
    else if min1 < 0 then (t.tm_hour - 1, min1 + 60, false)
    else (t.tm_hour, min1, false)
  let hour2 := step.1 + Int.tdiv delta 60
  let hour3 := if hour2 > 24 then hour2 - 24 else hour2
  let hour4 := if hour3 < 0 then hour3 + 24 else hour3
  { hour := hour4
    min := step.2.1
    is_pm := decide (hour4 > 12)
    carryTaken := step.2.2
    overflowTaken := decide (hour2 > 24) }

/-- The two colors the program uses. -/
inductive GColor where
  | Black
  | White
  deriving DecidableEq, Repr

/-- The inverse pairing of the two colors. -/
def GColor.invert : GColor → GColor
  | .Black => .White
  | .White => .Black

/-- A drawing rectangle `GRect(x, y, w, h)`. -/
structure GRect where
  x : Int
  y : Int
  w : Int
  h : Int
  deriving DecidableEq, Repr

/-- Two-digit zero-padded rendering of a time field, as the host strftime
formats do. -/
def format2 (n : Int) : String :=
  if n < 10 then "0" ++ toString n else toString n

/-- Host `string_format_time` restricted to the two format strings the
program uses (main.c lines 85 and 89): 24-hour hour and minute when the
display mode is 24h, else the 12-hour hour and minute. -/
def formatTime (is24h : Bool) (t : PblTm) : String :=
  if is24h then format2 t.tm_hour ++ ":" ++ format2 t.tm_min
  else format2 (Int.tmod (t.tm_hour + 11) 12 + 1) ++ ":" ++ format2 t.tm_min

/-- The drawing commands issued by one invocation of the render callback:
the fill and text colors set on the context (main.c lines 100-101), the
filled background rectangle (line 102), and the two text draws with their
rectangles (lines 104-105). -/
structure RenderOutput where
  fillColor : GColor
  textColor : GColor
  fillRect : GRect
  nameText : String
  nameRect : GRect
  timeText : String
  timeRect : GRect
  deriving DecidableEq, Repr

/-- The panel render callback `timezone_layer_update` (main.c lines
58-106): it saves `tm_hour` and `tm_min`, runs the zone arithmetic on the
shared `now` value in place, formats the zone time, computes `is_pm`,
restores the two saved fields, and issues the drawing commands.  Modelled
as a function from the shared `now` state (plus the zone entry, the host
12h/24h flag and the layer bounds) to the drawing commands paired with the
state the callback leaves behind. -/
def timezone_layer_update (tz : Timezone) (is24h : Bool) (w h : Int)
    (now : PblTm) : RenderOutput × PblTm :=
  let orig_hour := now.tm_hour
  let orig_min := now.tm_min
  let r := computeZone tz.offset gmt_offset now
  let mutated : PblTm := ⟨r.hour, r.min⟩
  let buf := formatTime is24h mutated
  let is_pm := decide (mutated.tm_hour > 12)
  let restored : PblTm := ⟨orig_hour, orig_min⟩
  ({ fillColor := if is_pm then GColor.Black else GColor.White
     textColor := if is_pm then GColor.White else GColor.Black
     fillRect := ⟨0, 0, w, h⟩
     nameText := tz.name
     nameRect := ⟨0, 0, w, Int.tdiv h 3⟩
     timeText := buf
     timeRect := ⟨0, Int.tdiv h 3, w, 2 * Int.tdiv h 3⟩ },
   restored)

/-- The render callback restores the shared `now` value before returning:
its output state is the pair of the saved original fields. -/
theorem update_restores (tz : Timezone) (is24h : Bool) (w h : Int)
    (now : PblTm) : (timezone_layer_update tz is24h w h now).2 = now := by
  cases now
  rfl

/-- C1: the claim that the zone-time computation always returns a minute in
[0,59] and an hour in [0,23] fails on the code: at local time 10:30 with
zone offset +510 and local offset +480 the minute delta is 30, the sum is
exactly 60, the carry guard (`> 60`) does not fire, and the computed
minute is 60, outside [0,59]. -/
theorem C1_minute_sixty :
    (computeZone 510 480 ⟨10, 30⟩).min = 60 ∧
    ¬ (computeZone 510 480 ⟨10, 30⟩).min ≤ 59 := by decide

/-- C2: the claim says a resulting minute of exactly 60 triggers the carry;
the code carries only when the minute exceeds 60, so at local time 10:30
with zone offset +510 and local offset +480 (delta 30, minute sum exactly
60) the carry branch is not taken, the hour stays 10 and the minute is
left at 60. -/
theorem C2_no_carry_at_sixty :
    (computeZone 510 480 ⟨10, 30⟩).carryTaken = false ∧
    (computeZone 510 480 ⟨10, 30⟩).min = 60 ∧
    (computeZone 510 480 ⟨10, 30⟩).hour = 10 := by decide

/-- C3: the claim that at local 23:30 with zone delta +60 the hour wraps to
0 fails on the code: the wrap guard is `> 24`, so hour 24 is left
unwrapped and the computation returns hour 24, minute 30.  The second
boundary of the claim (local 00:10, delta -60, giving 23:10) does hold. -/
theorem C3_hour_24_not_wrapped :
    (computeZone 60 0 ⟨23, 30⟩).hour = 24 ∧
    ¬ (computeZone 60 0 ⟨23, 30⟩).hour = 0 ∧
    (computeZone 60 0 ⟨23, 30⟩).min = 30 ∧
    (computeZone (-60) 0 ⟨0, 10⟩).hour = 23 ∧
    (computeZone (-60) 0 ⟨0, 10⟩).min = 10 := by decide

/-- C4: the AM/PM flag equals (normalized hour > 12) for every zone offset,
local offset and input time, and at inputs whose normalized hour is 12, 13
and 0 the flag is false, true and false respectively. -/
theorem C4_is_pm_gt_twelve :
    (∀ z g t, (computeZone z g t).is_pm =
      decide ((computeZone z g t).hour > 12)) ∧
    (computeZone 0 0 ⟨12, 0⟩).hour = 12 ∧
    (computeZone 0 0 ⟨12, 0⟩).is_pm = false ∧
    (computeZone 0 0 ⟨13, 0⟩).hour = 13 ∧
    (computeZone 0 0 ⟨13, 0⟩).is_pm = true ∧
    (computeZone 0 0 ⟨0, 0⟩).hour = 0 ∧
    (computeZone 0 0 ⟨0, 0⟩).is_pm = false := by
  refine ⟨fun z g t => rfl, ?_, ?_, ?_, ?_, ?_, ?_⟩ <;> decide

/-- C5: after every invocation of the panel render callback the shared
current-time value equals its value on entry: the callback mutates
`tm_hour` and `tm_min` in place during the computation but restores both
before returning. -/
theorem C5_now_restored (tz : Timezone) (is24h : Bool) (w h : Int)
    (now : PblTm) : (timezone_layer_update tz is24h w h now).2 = now :=
  update_restores tz is24h w h now

/-- C6: at local time 14:05 with the compiled local offset of +480 minutes,
the India zone (offset +330, a configured entry) computes 11:35 with is_pm
false, and the US Eastern zone (offset -300, a configured entry) computes
01:05 with is_pm false. -/
theorem C6_end_to_end :
    (⟨"India", 330⟩ : Timezone) ∈ timezones ∧
    (computeZone 330 gmt_offset ⟨14, 5⟩).hour = 11 ∧
    (computeZone 330 gmt_offset ⟨14, 5⟩).min = 35 ∧
    (computeZone 330 gmt_offset ⟨14, 5⟩).is_pm = false ∧
    (⟨"US Eastern", -300⟩ : Timezone) ∈ timezones ∧
    (computeZone (-300) gmt_offset ⟨14, 5⟩).hour = 1 ∧
    (computeZone (-300) gmt_offset ⟨14, 5⟩).min = 5 ∧
    (computeZone (-300) gmt_offset ⟨14, 5⟩).is_pm = false := by decide

/-- C7: when the zone offset equals the local offset the delta is zero, so
for every valid input time the computation returns the hour and minute
unchanged. -/
theorem C7_zero_delta_identity (off : Int) (t : PblTm)
    (h1 : 0 ≤ t.tm_hour) (h2 : t.tm_hour ≤ 23)
    (h3 : 0 ≤ t.tm_min) (h4 : t.tm_min ≤ 59) :
    (computeZone off off t).hour = t.tm_hour ∧
    (computeZone off off t).min = t.tm_min := by
  simp only [computeZone, sub_self, Int.zero_tmod, Int.zero_tdiv, add_zero]
  split_ifs <;> simp_all <;> omega

/-- Concrete instance of C7: the US Eastern offset against itself at 14:05
returns 14:05. -/
theorem C7_witness :
    (computeZone (-300) (-300) ⟨14, 5⟩).hour = 14 ∧
    (computeZone (-300) (-300) ⟨14, 5⟩).min = 5 :=
  C7_zero_delta_identity (-300) ⟨14, 5⟩ (by decide) (by decide)
    (by decide) (by decide)

/-- Bounds helper: when the delta's truncated remainder is nonpositive (at
least -59) and its truncated quotient is in [-23, 0], the minute-carry
branch and the hour-overflow branch are not taken and the result is a
valid time.  All three shipped zone deltas satisfy these bounds. -/
theorem computeZone_safe (tzo lo : Int) (t : PblTm)
    (h1 : 0 ≤ t.tm_hour) (h2 : t.tm_hour ≤ 23)
    (h3 : 0 ≤ t.tm_min) (h4 : t.tm_min ≤ 59)
    (hm1 : -59 ≤ Int.tmod (tzo - lo) 60) (hm2 : Int.tmod (tzo - lo) 60 ≤ 0)
    (hd1 : -23 ≤ Int.tdiv (tzo - lo) 60) (hd2 : Int.tdiv (tzo - lo) 60 ≤ 0) :
    (computeZone tzo lo t).carryTaken = false ∧
    (computeZone tzo lo t).overflowTaken = false ∧
    0 ≤ (computeZone tzo lo t).hour ∧
    (computeZone tzo lo t).hour ≤ 23 ∧
    0 ≤ (computeZone tzo lo t).min ∧
    (computeZone tzo lo t).min ≤ 59 := by
  obtain ⟨th, tm⟩ := t
  simp only [computeZone] at *
  generalize Int.tmod (tzo - lo) 60 = q at *
  generalize Int.tdiv (tzo - lo) 60 = d at *
  split_ifs <;> simp_all <;> omega

/-- C8: for each of the three configured zones with the compiled local
offset of +480 minutes, and every valid input time, the minute-carry
branch and the hour-overflow branch are never taken and the computed hour
and minute are in range. -/
theorem C8_shipped_config_safe (tz : Timezone) (htz : tz ∈ timezones)
    (t : PblTm) (h1 : 0 ≤ t.tm_hour) (h2 : t.tm_hour ≤ 23)
    (h3 : 0 ≤ t.tm_min) (h4 : t.tm_min ≤ 59) :
    (computeZone tz.offset gmt_offset t).carryTaken = false ∧
    (computeZone tz.offset gmt_offset t).overflowTaken = false ∧
    0 ≤ (computeZone tz.offset gmt_offset t).hour ∧
    (computeZone tz.offset gmt_offset t).hour ≤ 23 ∧
    0 ≤ (computeZone tz.offset gmt_offset t).min ∧
    (computeZone tz.offset gmt_offset t).min ≤ 59 := by
  have hcases : tz = ⟨"US Central", -6 * 60⟩ ∨ tz = ⟨"US Eastern", -5 * 60⟩ ∨
      tz = ⟨"India", 5 * 60 + 30⟩ := by simpa [timezones] using htz
  rcases hcases with hc | hc | hc <;> subst hc <;>
    exact computeZone_safe _ _ t h1 h2 h3 h4 (by decide) (by decide)
      (by decide) (by decide)

/-- Concrete instance of C8: the India zone at local time 00:00 stays in
range with neither hazardous branch taken. -/
theorem C8_witness :
    (computeZone ((⟨"India", 5 * 60 + 30⟩ : Timezone)).offset gmt_offset
      ⟨0, 0⟩).carryTaken = false ∧
    (computeZone ((⟨"India", 5 * 60 + 30⟩ : Timezone)).offset gmt_offset
      ⟨0, 0⟩).overflowTaken = false ∧
    0 ≤ (computeZone ((⟨"India", 5 * 60 + 30⟩ : Timezone)).offset gmt_offset
      ⟨0, 0⟩).hour ∧
    (computeZone ((⟨"India", 5 * 60 + 30⟩ : Timezone)).offset gmt_offset
      ⟨0, 0⟩).hour ≤ 23 ∧
    0 ≤ (computeZone ((⟨"India", 5 * 60 + 30⟩ : Timezone)).offset gmt_offset
      ⟨0, 0⟩).min ∧
    (computeZone ((⟨"India", 5 * 60 + 30⟩ : Timezone)).offset gmt_offset
      ⟨0, 0⟩).min ≤ 59 :=
  C8_shipped_config_safe ⟨"India", 5 * 60 + 30⟩ (by decide) ⟨0, 0⟩
    (by decide) (by decide) (by decide) (by decide)

/-- Decomposition helper: the drawing commands of one render invocation,
expressed through `computeZone`.  The `is_pm` the callback computes from
the mutated hour field is definitionally the `is_pm` of the zone
arithmetic. -/
theorem update_components (tz : Timezone) (is24h : Bool) (w h : Int)
    (now : PblTm) :
    (timezone_layer_update tz is24h w h now).1 =
      { fillColor := if (computeZone tz.offset gmt_offset now).is_pm
          then GColor.Black else GColor.White
        textColor := if (computeZone tz.offset gmt_offset now).is_pm
          then GColor.White else GColor.Black
        fillRect := ⟨0, 0, w, h⟩
        nameText := tz.name
        nameRect := ⟨0, 0, w, Int.tdiv h 3⟩
        timeText := formatTime is24h
          ⟨(computeZone tz.offset gmt_offset now).hour,
           (computeZone tz.offset gmt_offset now).min⟩
        timeRect := ⟨0, Int.tdiv h 3, w, 2 * Int.tdiv h 3⟩ } := rfl

/-- C9: the render fills the panel background white and draws text black
when is_pm is false, fills black and draws white when is_pm is true, and
the text color is always the paired inverse of the fill color. -/
theorem C9_colors (tz : Timezone) (is24h : Bool) (w h : Int) (now : PblTm) :
    (timezone_layer_update tz is24h w h now).1.fillColor =
      (if (computeZone tz.offset gmt_offset now).is_pm
        then GColor.Black else GColor.White) ∧
    (timezone_layer_update tz is24h w h now).1.textColor =
      (if (computeZone tz.offset gmt_offset now).is_pm
        then GColor.White else GColor.Black) ∧
    (timezone_layer_update tz is24h w h now).1.textColor =
      ((timezone_layer_update tz is24h w h now).1.fillColor).invert := by
  rw [update_components]
  cases (computeZone tz.offset gmt_offset now).is_pm <;>
    simp [GColor.invert]

/-- C10: the render callback is purely functional in its inputs: with the
same shared current-time value, the same zone entry, the same display-mode
flag and the same bounds, a second invocation on the state left by the
first issues the identical drawing commands and leaves the identical
state, so invoking it twice has the same observable effect as invoking it
once. -/
theorem C10_idempotent (tz : Timezone) (is24h : Bool) (w h : Int)
    (now : PblTm) :
    timezone_layer_update tz is24h w h
        (timezone_layer_update tz is24h w h now).2 =
      timezone_layer_update tz is24h w h now ∧
    (timezone_layer_update tz is24h w h now).2 = now := by
  rw [update_restores]
  exact ⟨rfl, update_restores tz is24h w h now⟩
